import Mathlib

/-!
Shallow embedding of `src/Steamlit_API.py` (the repository's only source
file): the call-log store (`save_log`, `load_logs`), the gateway client
(`fetch_call_details` and the start-call POST in `app_main`), the QA
evaluation stage of `app_main` (Groq call, `json.loads`, the per-item
rendering loop), and the inline workbook builder (lines 204-220).

External effects (HTTP, the language model, Streamlit rendering) are
modelled by passing their observable outcomes as explicit inputs; the
on-disk log file is modelled as an explicit `FileState` threaded through
the operations.
-/

/-- A persisted call-log record, as written by `save_log` in `app_main`:
`{"time": ..., "call_id": data.get("id"), "number": number}`.
`call_id` is `Option` because Python's `dict.get` yields `None` when the
gateway response carries no `"id"` key. -/
structure CallLogEntry where
  time : String
  call_id : Option String
  number : String
deriving DecidableEq, Repr

/-- The observable states of the log file `call_logs.json`:
absent, present but not parsable as JSON, or a parsed JSON array of
entries. (A file holding valid JSON that is not an array never arises
from this program's own writes and is out of scope.) -/
inductive FileState where
  | missing
  | corrupt
  | stored (logs : List CallLogEntry)
deriving DecidableEq, Repr

/-- The error `json.load` raises on an existing but unparsable file. -/
inductive StoreError where
  | parseError
deriving DecidableEq, Repr

/-- The read phase of `save_log` (lines 43-47): `json.load(open(LOG_FILE))`
with only `FileNotFoundError` caught (missing file degrades to `[]`);
a parse failure on an existing file propagates to the caller. -/
def readStore : FileState → Except StoreError (List CallLogEntry)
  | .missing => .ok []
  | .corrupt => .error .parseError
  | .stored logs => .ok logs

/-- `save_log(entry)` (lines 42-50): read the current list (see
`readStore`), append `entry` in memory, rewrite the whole file. The file
is only opened for writing after the read succeeds, so on a read error
the pair carries the unchanged file state together with the raised
error; on success it carries the rewritten file and no error. -/
def save_log (entry : CallLogEntry) (fs : FileState) :
    FileState × Option StoreError :=
  match readStore fs with
  | .error err => (fs, some err)
  | .ok logs => (.stored (logs ++ [entry]), none)

/-- `load_logs()` (lines 52-56): `json.load` under a bare `except` that
returns `[]`, so the function is total — every failure (missing file,
unparsable content) degrades to the empty list. -/
def load_logs : FileState → List CallLogEntry
  | .missing => []
  | .corrupt => []
  | .stored logs => logs

/-- The parsed JSON body of a successful call-creation response, as the
start-call handler uses it: only `data.get("id")` is read (`None` when
the key is absent). -/
structure StartBody where
  id : Option String
deriving DecidableEq, Repr

/-- The observable outcome of the `POST /call/phone` request (line 103):
the HTTP success flag `resp.ok`, and `some` parsed body when
`resp.json()` succeeds (`none` when the body is not valid JSON and
`resp.json()` raises). -/
structure StartResponse where
  ok : Bool
  body : Option StartBody
deriving DecidableEq, Repr

/-- Errors observable from the start-call form handler. -/
inductive StartActionError where
  /-- non-success status: `st.error("Error: Unable to start call.")` -/
  | startFailed
  /-- `resp.json()` raised on a success response with an unparsable body -/
  | bodyDecodeError
  /-- `save_log` raised (store exists but is unparsable) -/
  | storeFailed (e : StoreError)
deriving DecidableEq, Repr

/-- The start-call form handler (`app_main`, lines 97-114): on
`resp.ok`, parse the body and `save_log` the entry
`{time, call_id := data.get("id"), number}`; otherwise show an error and
touch nothing. The pair carries the resulting file state and the error
raised or displayed, if any. -/
def startCallAction (number now : String) (resp : StartResponse)
    (fs : FileState) : FileState × Option StartActionError :=
  if resp.ok then
    match resp.body with
    | none => (fs, some .bodyDecodeError)
    | some data =>
      match save_log ⟨now, data.id, number⟩ fs with
      | (fs', none) => (fs', none)
      | (fs', some e) => (fs', some (.storeFailed e))
  else (fs, some .startFailed)

/-- `analysis.structuredData` as the export section reads it: an opaque
mapping of provider fields (modelled as an association list; the empty
list models the empty JSON object `{}`, which is falsy in Python). -/
structure Analysis where
  structuredData : Option (List (String × String))
deriving DecidableEq, Repr

/-- A parsed `GET /call/{id}` body, as this program reads it:
`details.get("transcript")` and
`details.get("analysis", {}).get("structuredData")`. -/
structure CallDetails where
  transcript : Option String
  analysis : Option Analysis
deriving DecidableEq, Repr

/-- An HTTP request as `fetch_call_details` issues it: URL and timeout. -/
structure HttpRequest where
  url : String
  timeout : Nat
deriving DecidableEq, Repr

/-- The observable outcome of a lookup request: the HTTP success flag
`resp.ok`, and `some` parsed body when the text parses as JSON (`none`
when both `resp.json()` and `json.loads(resp.text)` fail — both parse
the same text, so one flag models both attempts). -/
structure HttpResponse where
  ok : Bool
  body : Option CallDetails

/-- Gateway-client failures surfaced by `fetch_call_details`:
`st.error("Failed to fetch call details.")` on a non-success status and
`st.error("Could not parse API response as JSON.")` on a success status
with an unparsable body; both paths return `None` to the caller. -/
inductive GatewayError where
  | fetchFailed
  | decodeFailed
deriving DecidableEq, Repr

/-- The single request `fetch_call_details` builds (lines 59-60):
`GET https://api.vapi.ai/call/{call_id}` with `timeout=10`. -/
def fetch_request (call_id : String) : HttpRequest :=
  { url := "https://api.vapi.ai/call/" ++ call_id, timeout := 10 }

/-- Response handling of `fetch_call_details` (lines 61-71). -/
def handle_fetch_response (resp : HttpResponse) :
    Except GatewayError CallDetails :=
  if resp.ok then
    match resp.body with
    | some d => .ok d
    | none => .error .decodeFailed
  else .error .fetchFailed

/-- `fetch_call_details(call_id)` (lines 58-71), with the network
modelled as an oracle from requests to responses: the pair records the
list of requests actually issued (exactly one — the function contains a
single `requests.get` and no retry loop) and the handled result. -/
def fetch_call_details (call_id : String)
    (respond : HttpRequest → HttpResponse) :
    List HttpRequest × Except GatewayError CallDetails :=
  ([fetch_request call_id],
    handle_fetch_response (respond (fetch_request call_id)))

/-- A JSON scalar as the QA items carry them: the model's ratings are
strings like `"N/A"` or numbers `1`-`5`, questions and explanations are
strings. -/
inductive JVal where
  | str (s : String)
  | num (n : Int)
deriving DecidableEq, Repr

/-- One element of the model's parsed JSON list: a JSON object, modelled
as an association list of fields so that missing and extra fields are
representable. -/
abbrev QaItem : Type := List (String × JVal)

/-- Python dict lookup `item[k]` as an `Option`: `some` the first value
bound to `k`, `none` when the key is absent (where Python raises
`KeyError`). -/
def getKey (item : QaItem) (k : String) : Option JVal :=
  match item.find? (fun p => p.1 == k) with
  | some p => some p.2
  | none => none

/-- The body of the QA rendering loop (lines 170-185) restricted to its
dict accesses: `item['question']`, `item['rating']`,
`item['explanation']`, in source order. The first absent key raises
`KeyError` (carried as the key's name); otherwise the three displayed
values are produced. All other loop statements only render. -/
def render_qa_item (item : QaItem) : Except String (JVal × JVal × JVal) :=
  match getKey item "question" with
  | none => .error "question"
  | some q =>
    match getKey item "rating" with
    | none => .error "rating"
    | some r =>
      match getKey item "explanation" with
      | none => .error "explanation"
      | some e => .ok (q, r, e)

/-- The QA rendering loop `for item in parsed` (lines 170-185): items
are rendered in order until the first `KeyError`, which aborts the loop
(the exception is caught by the surrounding `try`). Returns the rendered
prefix and the raised key, if any. -/
def render_qa_items : List QaItem → List (JVal × JVal × JVal) × Option String
  | [] => ([], none)
  | item :: rest =>
    match render_qa_item item with
    | .error k => ([], some k)
    | .ok r =>
      let tail := render_qa_items rest
      (r :: tail.1, tail.2)

/-- The fixed 12-question rubric (lines 26-39). The rendering loop never
consults it: it is embedded in the prompt only. -/
def qa_questions : List String := [
  "Did the agent introduce themselves and identify the dealership during the introduction?",
  "Did the agent identify the reason for the call?",
  "Did the agent speak to the correct person?",
  "Did the agent verify the phone/email address?",
  "Did the agent verify the vehicle information?",
  "Did the agent ask for current mileage and was clear on campaign service (DFS/INA/Recall)?",
  "Did the agent recap the appointment and represent the dealership positively and with a sense of trust?",
  "Did the agent set urgency in scheduling an appointment as soon as possible?",
  "Was the agent professional throughout the call?",
  "Did the agent speak confidently?",
  "Did the agent display active listening skills?",
  "Did the agent sound upbeat, enthusiastic, and friendly?"]

/-- The placeholder QA row the export writes when no evaluation ran
(line 207). -/
def placeholderQaRow : QaItem :=
  [("question", .str "N/A"), ("rating", .str "N/A"),
    ("explanation", .str "No evaluation performed")]

/-- The two-sheet workbook the export section serializes: one `CallData`
sheet row per structured-data mapping and one `QA Evaluation` sheet row
per QA item. -/
structure Workbook where
  callData : List (List (String × String))
  qaSheet : List QaItem
deriving DecidableEq

/-- The workbook assembly (lines 206-212) as a function of its two
inputs: `df_call = pd.DataFrame([structured])` (a single row, headered
by the mapping's keys — empty-but-headered when the mapping is empty)
and `df_qa = pd.DataFrame(parsed) if parsed else` the placeholder row.
It is a total function: no input raises. -/
def build_workbook (structured : List (String × String))
    (qa : List QaItem) : Workbook :=
  { callData := [structured],
    qaSheet := if qa.isEmpty then [placeholderQaRow] else qa }

/-- Python truthiness of `details.get("transcript")` at line 126:
present and non-empty. -/
def hasTranscript (d : CallDetails) : Bool :=
  match d.transcript with
  | some t => t != ""
  | none => false

/-- `details.get('analysis', {}).get('structuredData')` (line 204). -/
def structuredOf (d : CallDetails) : Option (List (String × String)) :=
  match d.analysis with
  | some a => a.structuredData
  | none => none

/-- The QA stage (the `try` block, lines 154-198), run only when a
truthy transcript exists. Its model input is `none` when the completion
call raised or `json.loads(response)` raised (the response body was not
valid JSON), `some items` when the body parsed to a JSON list.
Returns (attempted, error shown, rendered rows, value of `parsed`):
on a parse failure `parsed` keeps its initializer `[]` from line 123;
on a parse success `parsed` is assigned the whole list at line 164
before the loop, so it stays the full list even when rendering later
raises a `KeyError`. -/
def qaStage (transcriptPresent : Bool)
    (modelResult : Option (List QaItem)) :
    Bool × Bool × List (JVal × JVal × JVal) × List QaItem :=
  if transcriptPresent then
    match modelResult with
    | none => (true, true, [], [])
    | some items =>
      ((true : Bool), (render_qa_items items).2.isSome,
        (render_qa_items items).1, items)
  else (false, false, [], [])

/-- The export section (lines 203-220): reached only when structured
data is truthy (`if structured:` — absent, or present but the empty
mapping, is falsy and offers no download button). Returns whether the
download button is offered and the workbook behind it. -/
def exportStage (structured : Option (List (String × String)))
    (parsed : List QaItem) : Bool × Option Workbook :=
  match structured with
  | some s => if s.isEmpty then (false, none)
              else (true, some (build_workbook s parsed))
  | none => (false, none)

/-- Everything the Get-Transcript handler observably does in one run. -/
structure ActionResult where
  /-- `st.error("Could not fetch details or invalid response.")` shown -/
  fetchErrorShown : Bool
  transcriptShown : Bool
  /-- TextBlob polarity/subjectivity computed and shown (lines 130-136) -/
  sentimentComputed : Bool
  qaAttempted : Bool
  /-- `st.error("LLaMA evaluation failed.")` shown -/
  qaErrorShown : Bool
  qaRendered : List (JVal × JVal × JVal)
  parsed : List QaItem
  exportOffered : Bool
  workbook : Option Workbook
  /-- the logs displayed by the always-run footer (lines 224-231) -/
  displayedLogs : List CallLogEntry
deriving DecidableEq

/-- The Get-Transcript click handler (`app_main`, lines 121-231), with
the two external calls modelled as explicit inputs: `fetchResult` is the
outcome of `fetch_call_details`, `modelResult` that of the completion
call plus `json.loads` (see `qaStage`). The saved-logs footer runs on
every path. Sentiment is computed exactly when a truthy transcript is
present; the export section runs whenever details were fetched, using
whatever `parsed` holds. -/
def fetchTranscriptAction (fetchResult : Except GatewayError CallDetails)
    (modelResult : Option (List QaItem)) (fs : FileState) : ActionResult :=
  match fetchResult with
  | .error _ =>
    { fetchErrorShown := true, transcriptShown := false,
      sentimentComputed := false, qaAttempted := false,
      qaErrorShown := false, qaRendered := [], parsed := [],
      exportOffered := false, workbook := none,
      displayedLogs := load_logs fs }
  | .ok details =>
    { fetchErrorShown := false,
      transcriptShown := hasTranscript details,
      sentimentComputed := hasTranscript details,
      qaAttempted := (qaStage (hasTranscript details) modelResult).1,
      qaErrorShown := (qaStage (hasTranscript details) modelResult).2.1,
      qaRendered := (qaStage (hasTranscript details) modelResult).2.2.1,
      parsed := (qaStage (hasTranscript details) modelResult).2.2.2,
      exportOffered := (exportStage (structuredOf details)
        (qaStage (hasTranscript details) modelResult).2.2.2).1,
      workbook := (exportStage (structuredOf details)
        (qaStage (hasTranscript details) modelResult).2.2.2).2,
      displayedLogs := load_logs fs }

/-- Claim C2: for every state of the store file — missing, unreadable or
unparsable, or parsed — `load_logs` never fails and returns the empty
sequence in the degraded cases and the persisted ordered sequence when
the file parses. Totality of `load_logs` (it returns a plain list, not
an `Except`) embeds "never raises": the bare `except` in the source
catches everything. -/
theorem load_logs_total_and_correct :
    load_logs .missing = [] ∧ load_logs .corrupt = [] ∧
    ∀ logs : List CallLogEntry, load_logs (.stored logs) = logs :=
  ⟨rfl, rfl, fun _ => rfl⟩

/-- Claim C3: appending an entry with `save_log` to any well-formed prior
store state (missing, or a parsed array) succeeds, and a subsequent
`load_logs` returns a sequence whose last element is the appended entry. -/
theorem append_load_roundtrip (entry : CallLogEntry) (fs : FileState)
    (h : fs = .missing ∨ ∃ logs, fs = .stored logs) :
    ∃ fs', save_log entry fs = (fs', none) ∧
      (load_logs fs').getLast? = some entry := by
  rcases h with h | ⟨logs, h⟩ <;> subst h
  · exact ⟨.stored [entry], rfl, rfl⟩
  · exact ⟨.stored (logs ++ [entry]), rfl, by
      simp [load_logs, List.getLast?_concat]⟩

/-- Witness for C3 at a concrete entry and the missing-store state. -/
theorem append_load_roundtrip_witness :
    ∃ fs', save_log ⟨"2024-01-01T00:00:00", some "abc123", "+15551234567"⟩
        .missing = (fs', none) ∧
      (load_logs fs').getLast? =
        some ⟨"2024-01-01T00:00:00", some "abc123", "+15551234567"⟩ :=
  append_load_roundtrip _ .missing (Or.inl rfl)

/-- Claim C9: `save_log` writes the old sequence followed by the new
entry, so previously persisted entries are never modified, reordered, or
deleted: on a parsed store the result is exactly `logs ++ [entry]` (of
which the old `logs` is a prefix, as read back by `load_logs`), on a
missing store it is `[entry]`, and on an unparsable store no write
happens at all. `load_logs`, the only other store operation, takes the
state and returns a list without producing a new state: it cannot
modify the store. -/
theorem save_log_preserves_entries (entry : CallLogEntry)
    (logs : List CallLogEntry) :
    save_log entry (.stored logs) = (.stored (logs ++ [entry]), none) ∧
    save_log entry .missing = (.stored [entry], none) ∧
    (save_log entry .corrupt).1 = .corrupt ∧
    logs <+: load_logs (save_log entry (.stored logs)).1 :=
  ⟨rfl, rfl, rfl, ⟨[entry], rfl⟩⟩

/-- Claim C10: when the log file exists but its content is not parsable
JSON, `save_log` raises to its caller (only `FileNotFoundError` is
caught, so only a missing file is tolerated) and the file is unchanged —
the write `open(LOG_FILE, "w")` is sequenced after the `json.load` that
fails, so it is never reached. -/
theorem save_log_corrupt_raises (entry : CallLogEntry) :
    save_log entry .corrupt = (.corrupt, some .parseError) ∧
    save_log entry .missing = (.stored [entry], none) :=
  ⟨rfl, rfl⟩

/-- Claim C1: for every non-empty destination number and well-formed
prior log, the start-call action either receives a success response
(whose JSON body the gateway returns) and appends exactly the one entry
`{time, call_id, number}` to the persisted log, or receives a
non-success response (start failed) and leaves the log unchanged; and
over all responses — including a success response whose body does not
parse, where the handler raises before reaching `save_log` — the
resulting log is either unchanged or the old log with exactly one full
entry appended, never a partial entry. -/
theorem start_call_log_dichotomy (number now : String)
    (logs : List CallLogEntry) (resp : StartResponse)
    (hn : number ≠ "") :
    (∀ data : StartBody, resp.ok = true → resp.body = some data →
      startCallAction number now resp (.stored logs) =
        (.stored (logs ++ [⟨now, data.id, number⟩]), none)) ∧
    (resp.ok = false →
      startCallAction number now resp (.stored logs) =
        (.stored logs, some .startFailed)) ∧
    ((startCallAction number now resp (.stored logs)).1 = .stored logs ∨
      ∃ e, (startCallAction number now resp (.stored logs)).1 =
        .stored (logs ++ [e])) := by
  obtain ⟨ok, body⟩ := resp
  refine ⟨?_, ?_, ?_⟩
  · rintro data h rfl
    subst h
    rfl
  · rintro rfl
    rfl
  · cases ok <;> cases body
    · exact Or.inl rfl
    · exact Or.inl rfl
    · exact Or.inl rfl
    · exact Or.inr ⟨_, rfl⟩

/-- Witness for C1: the spec's own scenario — destination
`"+15551234567"`, gateway returns `{"id": "abc123"}` — appends exactly
that entry to an empty log. -/
theorem start_call_log_dichotomy_witness :
    startCallAction "+15551234567" "2024-01-01T00:00:00"
        ⟨true, some ⟨some "abc123"⟩⟩ (.stored []) =
      (.stored [⟨"2024-01-01T00:00:00", some "abc123", "+15551234567"⟩],
        none) :=
  (start_call_log_dichotomy "+15551234567" "2024-01-01T00:00:00" []
    ⟨true, some ⟨some "abc123"⟩⟩ (by decide)).1 ⟨some "abc123"⟩ rfl rfl

/-- Claim C8: for every call id, `fetch_call_details` issues exactly one
lookup request, with timeout 10 and no retries; on a non-success status
it signals a fetch failure (no details returned), and on a success
status with a body that cannot be parsed as JSON it signals a decode
failure (no details returned). -/
theorem fetch_call_single_request_and_errors (call_id : String)
    (respond : HttpRequest → HttpResponse) :
    (fetch_call_details call_id respond).1 = [fetch_request call_id] ∧
    (fetch_request call_id).timeout = 10 ∧
    ((respond (fetch_request call_id)).ok = false →
      (fetch_call_details call_id respond).2 = .error .fetchFailed) ∧
    ((respond (fetch_request call_id)).ok = true →
      (respond (fetch_request call_id)).body = none →
      (fetch_call_details call_id respond).2 = .error .decodeFailed) := by
  refine ⟨rfl, rfl, ?_, ?_⟩
  · intro h
    simp [fetch_call_details, handle_fetch_response, h]
  · intro h hb
    simp [fetch_call_details, handle_fetch_response, h, hb]

/-- Witness for C8: a gateway that answers with a non-success status
yields a fetch failure, and one that answers success with an unparsable
body yields a decode failure, at call id `"abc123"`. -/
theorem fetch_call_single_request_and_errors_witness :
    (fetch_call_details "abc123" (fun _ => ⟨false, none⟩)).2 =
        .error .fetchFailed ∧
    (fetch_call_details "abc123" (fun _ => ⟨true, none⟩)).2 =
        .error .decodeFailed :=
  ⟨(fetch_call_single_request_and_errors "abc123"
      (fun _ => ⟨false, none⟩)).2.2.1 rfl,
    (fetch_call_single_request_and_errors "abc123"
      (fun _ => ⟨true, none⟩)).2.2.2 rfl rfl⟩

/-- Claim C4: when the model's response body is not valid JSON (or the
completion call itself fails), the QA stage shows the evaluation-failed
error and yields no QA result at all — `parsed` keeps its initializer
`[]`, so never a partial sequence of items — and the failure is
non-fatal: sentiment was computed and the saved-logs footer still runs. -/
theorem evaluate_qa_invalid_json_nonfatal (details : CallDetails)
    (t : String) (fs : FileState)
    (ht : details.transcript = some t) (hne : t ≠ "") :
    (fetchTranscriptAction (.ok details) none fs).qaAttempted = true ∧
    (fetchTranscriptAction (.ok details) none fs).qaErrorShown = true ∧
    (fetchTranscriptAction (.ok details) none fs).qaRendered = [] ∧
    (fetchTranscriptAction (.ok details) none fs).parsed = [] ∧
    (fetchTranscriptAction (.ok details) none fs).sentimentComputed
      = true ∧
    (fetchTranscriptAction (.ok details) none fs).displayedLogs
      = load_logs fs := by
  have hb : hasTranscript details = true := by
    simp [hasTranscript, ht, hne]
  simp [fetchTranscriptAction, qaStage, hb]

/-- Witness for C4: the concrete fetch body
`{"transcript": "Hello, this is..."}` with an unparsable model
response. -/
theorem evaluate_qa_invalid_json_nonfatal_witness :
    (fetchTranscriptAction (.ok ⟨some "Hello, this is...", none⟩) none
        .missing).qaAttempted = true ∧
    (fetchTranscriptAction (.ok ⟨some "Hello, this is...", none⟩) none
        .missing).qaErrorShown = true ∧
    (fetchTranscriptAction (.ok ⟨some "Hello, this is...", none⟩) none
        .missing).qaRendered = [] ∧
    (fetchTranscriptAction (.ok ⟨some "Hello, this is...", none⟩) none
        .missing).parsed = [] ∧
    (fetchTranscriptAction (.ok ⟨some "Hello, this is...", none⟩) none
        .missing).sentimentComputed = true ∧
    (fetchTranscriptAction (.ok ⟨some "Hello, this is...", none⟩) none
        .missing).displayedLogs = load_logs .missing :=
  evaluate_qa_invalid_json_nonfatal ⟨some "Hello, this is...", none⟩
    "Hello, this is..." .missing rfl (by decide)

/-- Counterexample to claim C5 as stated: a parsed item lacking the
`question` field is not tolerated — the rendering loop raises `KeyError`
at its first dict access (caught as the whole-evaluation failure), so
nothing is rendered; the loop does no field-by-field validation. -/
theorem qa_item_missing_field_fails_evaluation :
    (render_qa_items [[("rating", JVal.str "N/A"),
        ("explanation", JVal.str "present"),
        ("extra", JVal.num 1)]]).2 = some "question" ∧
    (render_qa_items [[("rating", JVal.str "N/A"),
        ("explanation", JVal.str "present"),
        ("extra", JVal.num 1)]]).1 = [] := by
  exact ⟨rfl, rfl⟩

/-- Claim C5 as amended: the QA rendering tolerates a response whose
items omit, reorder, or add entries relative to the 12-question rubric
(the loop never consults `qa_questions`, so any list of items of any
length or order is processed), and tolerates extra fields on an item;
but every item must carry the `question`, `rating` and `explanation`
fields — an item missing one raises a `KeyError` that fails the whole
evaluation. Under that shape condition every item is rendered and no
error is shown. -/
theorem qa_rendering_tolerates_item_shape (items : List QaItem)
    (h : ∀ item ∈ items, (getKey item "question").isSome ∧
      (getKey item "rating").isSome ∧
      (getKey item "explanation").isSome) :
    (render_qa_items items).2 = none ∧
    (render_qa_items items).1.length = items.length := by
  induction items with
  | nil => exact ⟨rfl, rfl⟩
  | cons item rest ih =>
    have h1 := h item (List.mem_cons_self item rest)
    have h2 : ∀ x ∈ rest, (getKey x "question").isSome ∧
        (getKey x "rating").isSome ∧ (getKey x "explanation").isSome :=
      fun x hx => h x (List.mem_cons_of_mem item hx)
    obtain ⟨q, hq⟩ := Option.isSome_iff_exists.mp h1.1
    obtain ⟨r, hr⟩ := Option.isSome_iff_exists.mp h1.2.1
    obtain ⟨e, he⟩ := Option.isSome_iff_exists.mp h1.2.2
    obtain ⟨ihe, ihl⟩ := ih h2
    simp [render_qa_items, render_qa_item, hq, hr, he, ihe, ihl]

/-- Witness for the amended C5: two items — fewer than the 12 rubric
questions, one with an extra field and its fields out of order, one
whose question is not in the rubric at all — render without error. -/
theorem qa_rendering_tolerates_item_shape_witness :
    (render_qa_items [
      [("question", JVal.str "Did the agent speak confidently?"),
        ("rating", JVal.num 4),
        ("explanation", JVal.str "clear tone"),
        ("extra", JVal.str "ignored")],
      [("rating", JVal.str "N/A"),
        ("question", JVal.str "An unlisted question"),
        ("explanation", JVal.str "not in the rubric")]]).2 = none ∧
    (render_qa_items [
      [("question", JVal.str "Did the agent speak confidently?"),
        ("rating", JVal.num 4),
        ("explanation", JVal.str "clear tone"),
        ("extra", JVal.str "ignored")],
      [("rating", JVal.str "N/A"),
        ("question", JVal.str "An unlisted question"),
        ("explanation", JVal.str "not in the rubric")]]).1.length = 2 :=
  qa_rendering_tolerates_item_shape _ (by decide)

/-- Counterexample to claim C6 as stated: at the spec's own scenario —
details `{"transcript": "Hello, this is..."}` with no `analysis` field —
sentiment is computed and QA evaluation attempted, but the export button
is NOT offered and no workbook is built: the whole export section sits
under `if structured:`, which is falsy when structured data is absent. -/
theorem fetch_no_analysis_offers_no_export :
    (fetchTranscriptAction (.ok ⟨some "Hello, this is...", none⟩) none
        .missing).sentimentComputed = true ∧
    (fetchTranscriptAction (.ok ⟨some "Hello, this is...", none⟩) none
        .missing).qaAttempted = true ∧
    (fetchTranscriptAction (.ok ⟨some "Hello, this is...", none⟩) none
        .missing).exportOffered = false ∧
    (fetchTranscriptAction (.ok ⟨some "Hello, this is...", none⟩) none
        .missing).workbook = none := by
  exact ⟨rfl, rfl, rfl, rfl⟩

/-- Claim C6 as amended: fetching a call whose details contain a
non-empty transcript but no structured data (`analysis` absent, or
present without `structuredData`) computes sentiment and attempts QA
evaluation, but offers no export button and builds no workbook — export
only appears when truthy structured data is present. -/
theorem no_structured_data_no_export (details : CallDetails) (t : String)
    (mr : Option (List QaItem)) (fs : FileState)
    (ht : details.transcript = some t) (hne : t ≠ "")
    (hs : structuredOf details = none) :
    (fetchTranscriptAction (.ok details) mr fs).sentimentComputed
      = true ∧
    (fetchTranscriptAction (.ok details) mr fs).qaAttempted = true ∧
    (fetchTranscriptAction (.ok details) mr fs).exportOffered = false ∧
    (fetchTranscriptAction (.ok details) mr fs).workbook = none := by
  have hb : hasTranscript details = true := by
    simp [hasTranscript, ht, hne]
  cases mr <;> simp [fetchTranscriptAction, qaStage, exportStage, hb, hs]

/-- Witness for the amended C6: details with a transcript and an
`analysis` object that lacks `structuredData`, a model response that
parsed to the empty list, and an empty stored log. -/
theorem no_structured_data_no_export_witness :
    (fetchTranscriptAction (.ok ⟨some "Hi", some ⟨none⟩⟩) (some [])
        (.stored [])).sentimentComputed = true ∧
    (fetchTranscriptAction (.ok ⟨some "Hi", some ⟨none⟩⟩) (some [])
        (.stored [])).qaAttempted = true ∧
    (fetchTranscriptAction (.ok ⟨some "Hi", some ⟨none⟩⟩) (some [])
        (.stored [])).exportOffered = false ∧
    (fetchTranscriptAction (.ok ⟨some "Hi", some ⟨none⟩⟩) (some [])
        (.stored [])).workbook = none :=
  no_structured_data_no_export ⟨some "Hi", some ⟨none⟩⟩ "Hi" (some [])
    (.stored []) rfl (by decide) rfl

/-- Claim C7: `build_workbook` on an empty structured-data mapping and an
empty QA sequence succeeds — it is a total function, so no input raises —
and yields the workbook whose CallData sheet is the single empty
(headers-only) row and whose QA Evaluation sheet contains exactly one
placeholder row `{question: "N/A", rating: "N/A",
explanation: "No evaluation performed"}`. -/
theorem build_workbook_empty_inputs :
    build_workbook [] [] =
      { callData := [[]],
        qaSheet := [[("question", JVal.str "N/A"),
          ("rating", JVal.str "N/A"),
          ("explanation", JVal.str "No evaluation performed")]] } := rfl
